import Mathlib

/-!
Verification of the ROI calculator's calculation engine and input validation.

The development shallowly embeds the JavaScript sources:
  * `Formulas`       — the full engine `src/backup/src-complex/formulas.js`
  * `SimpleFormulas` — the reduced engine `src/backup/src-complex/simple-formulas.js`
  * `SimpleCalc`     — the leanest variant `src/src/simple-calc.js`
  * `Validation`     — the input validation module (schema, coercion, per-field
    and cross-field checks)

JavaScript numbers are idealised as exact rationals `ℚ`.  Where the source can
actually produce `Infinity`/`NaN` (unguarded division in the reduced engines)
the embedding uses the type `JSN` which carries those values explicitly with
IEEE-style semantics for the operations the source applies to them.
-/

namespace Formulas

/-- The `CalculatorInputs` record of formulas.js.  Fields validated as
`integer` by the validation schema (`timeHorizonYears`,
`utilisationRampMonths`) are carried as `ℕ`: the engine is only ever invoked
on validated inputs, where they are integers within nonnegative bounds, and
they are used as loop bounds.  All other numeric fields are `ℚ`. -/
structure Inputs where
  vehicleCount : ℚ
  annualKmPerVehicle : ℚ
  fuelConsumptionLPer100km : ℚ
  fuelPricePerLitre : ℚ
  baselineAccidentsPerYear : ℚ
  avgAccidentCost : ℚ
  annualInsurancePremium : ℚ
  fuelSavingsPct : ℚ
  accidentReductionPct : ℚ
  insuranceReductionPct : ℚ
  adoptionPct : ℚ
  hardwareCostPerVehicle : ℚ
  subscriptionPerVehiclePerMonth : ℚ
  implementationOneOff : ℚ
  trainingOneOff : ℚ
  timeHorizonYears : ℕ
  discountRatePct : ℚ
  currency : String
  startMonth : String
  utilisationRampMonths : ℕ
  resaleRecoveryPctHardware : ℚ
  maintenancePerVehiclePerYear : ℚ
deriving DecidableEq, Repr

/-- `calculateBaselineFuelCost` of formulas.js. -/
def calculateBaselineFuelCost (inputs : Inputs) : ℚ :=
  inputs.vehicleCount * inputs.annualKmPerVehicle *
    (inputs.fuelConsumptionLPer100km / 100) * inputs.fuelPricePerLitre

/-- `calculateFuelSavings` of formulas.js. -/
def calculateFuelSavings (inputs : Inputs) (baselineFuelCost : ℚ) : ℚ :=
  baselineFuelCost * (inputs.fuelSavingsPct / 100) * (inputs.adoptionPct / 100)

/-- `calculateAccidentSavings` of formulas.js. -/
def calculateAccidentSavings (inputs : Inputs) : ℚ :=
  inputs.baselineAccidentsPerYear * (inputs.accidentReductionPct / 100) *
    (inputs.adoptionPct / 100) * inputs.avgAccidentCost

/-- `calculateInsuranceSavings` of formulas.js. -/
def calculateInsuranceSavings (inputs : Inputs) : ℚ :=
  inputs.annualInsurancePremium * (inputs.insuranceReductionPct / 100) *
    (inputs.adoptionPct / 100)

/-- `calculateTotalSavings` of formulas.js. -/
def calculateTotalSavings (fuelSavings accidentSavings insuranceSavings : ℚ) : ℚ :=
  fuelSavings + accidentSavings + insuranceSavings

/-- The record returned by `calculateProgramCosts`. -/
structure ProgramCosts where
  capexHardware : ℚ
  opexSubscriptionAnnual : ℚ
  oneOff : ℚ
  maintenanceAnnual : ℚ
deriving DecidableEq, Repr

/-- `calculateProgramCosts` of formulas.js. -/
def calculateProgramCosts (inputs : Inputs) : ProgramCosts :=
  { capexHardware := inputs.vehicleCount * inputs.hardwareCostPerVehicle
    opexSubscriptionAnnual := inputs.vehicleCount * inputs.subscriptionPerVehiclePerMonth * 12
    oneOff := inputs.implementationOneOff + inputs.trainingOneOff
    maintenanceAnnual := inputs.vehicleCount * inputs.maintenancePerVehiclePerYear }

/-- The savings object `{ totalSavingsAnnual }` that `calculateROI` passes to
`calculateTimeline`. -/
structure SavingsTotals where
  totalSavingsAnnual : ℚ
deriving DecidableEq, Repr

/-- The timeline record of five parallel arrays built by `calculateTimeline`. -/
structure Timeline where
  months : List ℚ
  savingsMonthly : List ℚ
  costsMonthly : List ℚ
  netMonthly : List ℚ
  cumNetMonthly : List ℚ
deriving DecidableEq, Repr

/-- The ramp factor of the loop body of `calculateTimeline` (lines 171-175):
`1`, overridden to `(i+1)/utilisationRampMonths` when `i < utilisationRampMonths`. -/
def rampFactor (ramp i : ℕ) : ℚ :=
  if i < ramp then ((i : ℚ) + 1) / (ramp : ℚ) else 1

/-- Savings pushed for month `i` in `calculateTimeline`:
`(savings.totalSavingsAnnual / 12) * rampFactor`. -/
def savingsAt (totalSavingsAnnual : ℚ) (ramp i : ℕ) : ℚ :=
  totalSavingsAnnual / 12 * rampFactor ramp i

/-- Costs pushed for month `i` in `calculateTimeline`: recurring subscription
and maintenance, plus capex and one-off costs at month 0, minus resale
recovery at the final month when `resaleRecoveryPctHardware > 0`. -/
def costsAt (costs : ProgramCosts) (resale : ℚ) (totalMonths i : ℕ) : ℚ :=
  costs.opexSubscriptionAnnual / 12 + costs.maintenanceAnnual / 12
    + (if i = 0 then costs.capexHardware + costs.oneOff else 0)
    - (if i = totalMonths - 1 ∧ 0 < resale then costs.capexHardware * (resale / 100) else 0)

/-- Net cash flow for month `i`: `monthlySavings - monthlyCosts`. -/
def netAt (totalSavingsAnnual : ℚ) (ramp : ℕ) (costs : ProgramCosts)
    (resale : ℚ) (totalMonths i : ℕ) : ℚ :=
  savingsAt totalSavingsAnnual ramp i - costsAt costs resale totalMonths i

/-- The running accumulator `cumulativeNet` after pushing month `i`:
the loop adds each month's net flow in order, so its value is the partial sum
of the net flows of months `0..i`. -/
def cumAt (totalSavingsAnnual : ℚ) (ramp : ℕ) (costs : ProgramCosts)
    (resale : ℚ) (totalMonths i : ℕ) : ℚ :=
  ∑ j in Finset.range (i + 1), netAt totalSavingsAnnual ramp costs resale totalMonths j

/-- `calculateTimeline` of formulas.js.  The single loop of the source pushing
into five arrays is rendered as five maps over `List.range totalMonths`, with
the accumulator rendered as a partial sum (`cumAt`).  The `currentDate`
computed by the loop from `startMonth` is dead code in the source (never read),
so `startMonth` does not appear here. -/
def calculateTimeline (inputs : Inputs) (savings : SavingsTotals)
    (costs : ProgramCosts) : Timeline :=
  let totalMonths := inputs.timeHorizonYears * 12
  { months := (List.range totalMonths).map (fun i : ℕ => (i : ℚ) + 1)
    savingsMonthly := (List.range totalMonths).map
      (savingsAt savings.totalSavingsAnnual inputs.utilisationRampMonths)
    costsMonthly := (List.range totalMonths).map
      (costsAt costs inputs.resaleRecoveryPctHardware totalMonths)
    netMonthly := (List.range totalMonths).map
      (netAt savings.totalSavingsAnnual inputs.utilisationRampMonths costs
        inputs.resaleRecoveryPctHardware totalMonths)
    cumNetMonthly := (List.range totalMonths).map
      (cumAt savings.totalSavingsAnnual inputs.utilisationRampMonths costs
        inputs.resaleRecoveryPctHardware totalMonths) }

/-- `calculatePayback` of formulas.js: index (1-based) of the first entry
`≥ 0`, or the array length when none is. -/
def calculatePayback : List ℚ → ℕ
  | [] => 0
  | x :: xs => if 0 ≤ x then 1 else calculatePayback xs + 1

/-- `calculateSimpleROI` of formulas.js. -/
def calculateSimpleROI (totalSavings totalCosts : ℚ) : ℚ :=
  if totalCosts = 0 then 0 else (totalSavings - totalCosts) / totalCosts * 100

/-- The annual total savings computed by the savings chain of `calculateROI`. -/
def totalSavingsAnnualOf (inputs : Inputs) : ℚ :=
  calculateTotalSavings
    (calculateFuelSavings inputs (calculateBaselineFuelCost inputs))
    (calculateAccidentSavings inputs)
    (calculateInsuranceSavings inputs)

/-- `totalCosts` as computed inside `calculateROI` (lines 279-280). -/
def totalCostsOf (inputs : Inputs) : ℚ :=
  (calculateProgramCosts inputs).capexHardware + (calculateProgramCosts inputs).oneOff +
    ((calculateProgramCosts inputs).opexSubscriptionAnnual +
      (calculateProgramCosts inputs).maintenanceAnnual) * (inputs.timeHorizonYears : ℚ)

/-- The `CalculationOutputs` record returned by `calculateROI`. -/
structure Outputs where
  baselineFuelCost : ℚ
  fuelSavingsAnnual : ℚ
  accidentSavingsAnnual : ℚ
  insuranceSavingsAnnual : ℚ
  totalSavingsAnnual : ℚ
  capexHardware : ℚ
  opexSubscriptionAnnual : ℚ
  oneOff : ℚ
  maintenanceAnnual : ℚ
  timeline : Timeline
  paybackMonths : ℕ
  roiSimplePct : ℚ
deriving DecidableEq, Repr

/-- `calculateROI` of formulas.js: the orchestrating pipeline. -/
def calculateROI (inputs : Inputs) : Outputs :=
  let baselineFuelCost := calculateBaselineFuelCost inputs
  let fuelSavingsAnnual := calculateFuelSavings inputs baselineFuelCost
  let accidentSavingsAnnual := calculateAccidentSavings inputs
  let insuranceSavingsAnnual := calculateInsuranceSavings inputs
  let totalSavingsAnnual :=
    calculateTotalSavings fuelSavingsAnnual accidentSavingsAnnual insuranceSavingsAnnual
  let costs := calculateProgramCosts inputs
  let timeline := calculateTimeline inputs ⟨totalSavingsAnnual⟩ costs
  { baselineFuelCost := baselineFuelCost
    fuelSavingsAnnual := fuelSavingsAnnual
    accidentSavingsAnnual := accidentSavingsAnnual
    insuranceSavingsAnnual := insuranceSavingsAnnual
    totalSavingsAnnual := totalSavingsAnnual
    capexHardware := costs.capexHardware
    opexSubscriptionAnnual := costs.opexSubscriptionAnnual
    oneOff := costs.oneOff
    maintenanceAnnual := costs.maintenanceAnnual
    timeline := timeline
    paybackMonths := calculatePayback timeline.cumNetMonthly
    roiSimplePct := calculateSimpleROI (totalSavingsAnnual * (inputs.timeHorizonYears : ℚ))
      (totalCostsOf inputs) }

/-- `applyScenario` of formulas.js: `conservative` scales the three sensitivity
percentages by 0.75, `aggressive` by 1.25, and `base` or any other string
leaves the record unchanged. -/
def applyScenario (inputs : Inputs) (scenario : String) : Inputs :=
  if scenario = "conservative" then
    { inputs with
      fuelSavingsPct := inputs.fuelSavingsPct * 0.75
      accidentReductionPct := inputs.accidentReductionPct * 0.75
      insuranceReductionPct := inputs.insuranceReductionPct * 0.75 }
  else if scenario = "aggressive" then
    { inputs with
      fuelSavingsPct := inputs.fuelSavingsPct * 1.25
      accidentReductionPct := inputs.accidentReductionPct * 1.25
      insuranceReductionPct := inputs.insuranceReductionPct * 1.25 }
  else
    inputs

end Formulas

/-- JavaScript number values that the reduced engines can actually produce:
a finite value (idealised as `ℚ`), the two infinities, or `NaN`. -/
inductive JSN where
  | fin (q : ℚ)
  | inf
  | ninf
  | nan
deriving DecidableEq, Repr

/-- JavaScript division of two finite numbers: division by zero yields
`Infinity`, `-Infinity` or `NaN` according to the sign of the numerator
(there is no negative zero in `ℚ`; none of the embedded division sites can
receive one). -/
def jsDiv (a b : ℚ) : JSN :=
  if b = 0 then (if 0 < a then .inf else if a < 0 then .ninf else .nan)
  else .fin (a / b)

/-- JavaScript multiplication of a possibly non-finite value by a finite one. -/
def jsnMul (x : JSN) (c : ℚ) : JSN :=
  match x with
  | .fin q => .fin (q * c)
  | .inf => if 0 < c then .inf else if c < 0 then .ninf else .nan
  | .ninf => if 0 < c then .ninf else if c < 0 then .inf else .nan
  | .nan => .nan

/-- JavaScript `Math.ceil`, which is the identity on `Infinity`, `-Infinity`
and `NaN`. -/
def jsnCeil : JSN → JSN
  | .fin q => .fin ((⌈q⌉ : ℤ) : ℚ)
  | x => x

namespace SimpleFormulas

/-- The result record of simple-formulas.js `calculateROI`.  `paybackMonths`
and `roiSimplePct` are `JSN` because their defining divisions are unguarded in
the source. -/
structure Results where
  paybackMonths : JSN
  roiSimplePct : JSN
  totalSavingsAnnual : ℚ
deriving DecidableEq, Repr

/-- `calculateROI` of simple-formulas.js: straight-line payback
`Math.ceil(initialCosts / netMonthlySavings)` and ROI
`((totalSavings - totalCosts) / totalCosts) * 100`, both with unguarded
division. -/
def calculateROI (inputs : Formulas.Inputs) : Results :=
  let baselineFuelCost := inputs.vehicleCount * inputs.annualKmPerVehicle *
    (inputs.fuelConsumptionLPer100km / 100) * inputs.fuelPricePerLitre
  let fuelSavings := baselineFuelCost * (inputs.fuelSavingsPct / 100) * (inputs.adoptionPct / 100)
  let accidentSavings := inputs.baselineAccidentsPerYear * (inputs.accidentReductionPct / 100) *
    (inputs.adoptionPct / 100) * inputs.avgAccidentCost
  let insuranceSavings := inputs.annualInsurancePremium * (inputs.insuranceReductionPct / 100) *
    (inputs.adoptionPct / 100)
  let totalSavingsAnnual := fuelSavings + accidentSavings + insuranceSavings
  let hardwareCosts := inputs.vehicleCount * inputs.hardwareCostPerVehicle
  let subscriptionAnnual := inputs.vehicleCount * inputs.subscriptionPerVehiclePerMonth * 12
  let oneOffCosts := inputs.implementationOneOff + inputs.trainingOneOff
  let monthlySavings := totalSavingsAnnual / 12
  let monthlyCosts := subscriptionAnnual / 12
  let netMonthlySavings := monthlySavings - monthlyCosts
  let initialCosts := hardwareCosts + oneOffCosts
  let totalCosts := hardwareCosts + oneOffCosts + subscriptionAnnual * (inputs.timeHorizonYears : ℚ)
  let totalSavings := totalSavingsAnnual * (inputs.timeHorizonYears : ℚ)
  { paybackMonths := jsnCeil (jsDiv initialCosts netMonthlySavings)
    roiSimplePct := jsnMul (jsDiv (totalSavings - totalCosts) totalCosts) 100
    totalSavingsAnnual := totalSavingsAnnual }

/-- `applyScenario` of simple-formulas.js; textually the same switch as the
full engine's. -/
def applyScenario (inputs : Formulas.Inputs) (scenario : String) : Formulas.Inputs :=
  if scenario = "conservative" then
    { inputs with
      fuelSavingsPct := inputs.fuelSavingsPct * 0.75
      accidentReductionPct := inputs.accidentReductionPct * 0.75
      insuranceReductionPct := inputs.insuranceReductionPct * 0.75 }
  else if scenario = "aggressive" then
    { inputs with
      fuelSavingsPct := inputs.fuelSavingsPct * 1.25
      accidentReductionPct := inputs.accidentReductionPct * 1.25
      insuranceReductionPct := inputs.insuranceReductionPct * 1.25 }
  else
    inputs

end SimpleFormulas

namespace SimpleCalc

/-- The merged data record used by `calculate` in src/src/simple-calc.js
(defaults merged with form inputs; no hardware, ramp, resale or maintenance
fields).  All numeric fields come from `parseFloat` on form values, so
`timeHorizonYears` is a plain number here. -/
structure Data where
  vehicleCount : ℚ
  annualKmPerVehicle : ℚ
  fuelConsumptionLPer100km : ℚ
  fuelPricePerLitre : ℚ
  baselineAccidentsPerYear : ℚ
  avgAccidentCost : ℚ
  annualInsurancePremium : ℚ
  fuelSavingsPct : ℚ
  accidentReductionPct : ℚ
  insuranceReductionPct : ℚ
  adoptionPct : ℚ
  subscriptionPerVehiclePerMonth : ℚ
  implementationOneOff : ℚ
  trainingOneOff : ℚ
  timeHorizonYears : ℚ
  currency : String
deriving DecidableEq, Repr

/-- The result record of `calculate` in src/src/simple-calc.js.  `paybackMonths`
is `Option ℤ`: the source returns `null` (rendered "Never") when the net
monthly flow is not positive, and `Math.ceil` of the quotient otherwise.
`roiSimplePct` is `JSN` because its division is unguarded. -/
structure Results where
  totalSavingsAnnual : ℚ
  subscriptionAnnual : ℚ
  roiSimplePct : JSN
  paybackMonths : Option ℤ
deriving DecidableEq, Repr

/-- `calculate` of src/src/simple-calc.js, on the already-merged data record. -/
def calculate (data : Data) : Results :=
  let baselineLitres := data.vehicleCount * data.annualKmPerVehicle *
    (data.fuelConsumptionLPer100km / 100)
  let baselineFuelCost := baselineLitres * data.fuelPricePerLitre
  let fuelSavings := baselineFuelCost * (data.fuelSavingsPct / 100) * (data.adoptionPct / 100)
  let accidentSavings := data.baselineAccidentsPerYear * (data.accidentReductionPct / 100) *
    (data.adoptionPct / 100) * data.avgAccidentCost
  let insuranceSavings := data.annualInsurancePremium * (data.insuranceReductionPct / 100) *
    (data.adoptionPct / 100)
  let totalSavingsAnnual := fuelSavings + accidentSavings + insuranceSavings
  let subscriptionAnnual := data.vehicleCount * data.subscriptionPerVehiclePerMonth * 12
  let oneOffCosts := data.implementationOneOff + data.trainingOneOff
  let totalCosts := oneOffCosts + subscriptionAnnual * data.timeHorizonYears
  let totalSavings := totalSavingsAnnual * data.timeHorizonYears
  let monthlySavings := totalSavingsAnnual / 12
  let monthlyCosts := subscriptionAnnual / 12
  let netMonthly := monthlySavings - monthlyCosts
  { totalSavingsAnnual := totalSavingsAnnual
    subscriptionAnnual := subscriptionAnnual
    roiSimplePct := jsnMul (jsDiv (totalSavings - totalCosts) totalCosts) 100
    paybackMonths := if 0 < netMonthly then some ⌈oneOffCosts / netMonthly⌉ else none }

/-- The net monthly cash flow used by the payback branch of `calculate`. -/
def netMonthlyOf (data : Data) : ℚ :=
  let baselineFuelCost := data.vehicleCount * data.annualKmPerVehicle *
    (data.fuelConsumptionLPer100km / 100) * data.fuelPricePerLitre
  let fuelSavings := baselineFuelCost * (data.fuelSavingsPct / 100) * (data.adoptionPct / 100)
  let accidentSavings := data.baselineAccidentsPerYear * (data.accidentReductionPct / 100) *
    (data.adoptionPct / 100) * data.avgAccidentCost
  let insuranceSavings := data.annualInsurancePremium * (data.insuranceReductionPct / 100) *
    (data.adoptionPct / 100)
  (fuelSavings + accidentSavings + insuranceSavings) / 12 -
    data.vehicleCount * data.subscriptionPerVehiclePerMonth * 12 / 12

end SimpleCalc

namespace Validation

/-- The field names of the validation schema, in the schema's declaration
order (which is the iteration order of `validateInputs`). -/
inductive Field where
  | vehicleCount
  | annualKmPerVehicle
  | fuelConsumptionLPer100km
  | fuelPricePerLitre
  | baselineAccidentsPerYear
  | avgAccidentCost
  | annualInsurancePremium
  | fuelSavingsPct
  | accidentReductionPct
  | insuranceReductionPct
  | adoptionPct
  | hardwareCostPerVehicle
  | subscriptionPerVehiclePerMonth
  | implementationOneOff
  | trainingOneOff
  | timeHorizonYears
  | discountRatePct
  | currency
  | startMonth
  | utilisationRampMonths
  | resaleRecoveryPctHardware
  | maintenancePerVehiclePerYear
deriving DecidableEq, Repr

/-- All schema fields, in declaration order. -/
def allFields : List Field :=
  [.vehicleCount, .annualKmPerVehicle, .fuelConsumptionLPer100km, .fuelPricePerLitre,
   .baselineAccidentsPerYear, .avgAccidentCost, .annualInsurancePremium, .fuelSavingsPct,
   .accidentReductionPct, .insuranceReductionPct, .adoptionPct, .hardwareCostPerVehicle,
   .subscriptionPerVehiclePerMonth, .implementationOneOff, .trainingOneOff,
   .timeHorizonYears, .discountRatePct, .currency, .startMonth, .utilisationRampMonths,
   .resaleRecoveryPctHardware, .maintenancePerVehiclePerYear]

/-- The `type` tag of a schema entry. -/
inductive FType where
  | integer
  | number
  | string
  | date
deriving DecidableEq, Repr

/-- A raw input value as supplied to `validateInputs`: a JS number (idealised
as `ℚ`), a string, `null`, or `undefined` (an absent key). -/
inductive RawVal where
  | num (q : ℚ)
  | str (s : String)
  | null
  | undef
deriving DecidableEq, Repr

/-- A coerced value as produced by `coerceValue`: a number (a finite value,
`Infinity`, or `-Infinity` — `parseFloat` parses the `Infinity` literal, and
the result flows into the range checks as a number), a string, or the `null`
absence marker.  `NaN` never reaches a coerced record: `coerceValue` replaces
it with `null`. -/
inductive CVal where
  | num (q : ℚ)
  | inf
  | ninf
  | str (s : String)
  | null
deriving DecidableEq, Repr

/-- One entry of `validationSchema`: the declared type, optional inclusive
bounds, and the optional `allowedValues` list.  The human-readable `error`
strings of the source carry no logic and are not modelled. -/
structure FieldSchema where
  ftype : FType
  min : Option ℚ := none
  max : Option ℚ := none
  allowed : Option (List String) := none
deriving DecidableEq, Repr

/-- The `validationSchema` object of the validation module. -/
def schema : Field → FieldSchema
  | .vehicleCount => { ftype := .integer, min := some 1, max := some 10000 }
  | .annualKmPerVehicle => { ftype := .number, min := some 1000, max := some 200000 }
  | .fuelConsumptionLPer100km => { ftype := .number, min := some 5, max := some 50 }
  | .fuelPricePerLitre => { ftype := .number, min := some (1/2), max := some 5 }
  | .baselineAccidentsPerYear => { ftype := .number, min := some 0, max := some 1000 }
  | .avgAccidentCost => { ftype := .number, min := some 100, max := some 100000 }
  | .annualInsurancePremium => { ftype := .number, min := some 1000, max := some 10000000 }
  | .fuelSavingsPct => { ftype := .number, min := some 0, max := some 50 }
  | .accidentReductionPct => { ftype := .number, min := some 0, max := some 100 }
  | .insuranceReductionPct => { ftype := .number, min := some 0, max := some 50 }
  | .adoptionPct => { ftype := .number, min := some 0, max := some 100 }
  | .hardwareCostPerVehicle => { ftype := .number, min := some 0, max := some 5000 }
  | .subscriptionPerVehiclePerMonth => { ftype := .number, min := some 0, max := some 200 }
  | .implementationOneOff => { ftype := .number, min := some 0, max := some 50000 }
  | .trainingOneOff => { ftype := .number, min := some 0, max := some 50000 }
  | .timeHorizonYears => { ftype := .integer, min := some 1, max := some 10 }
  | .discountRatePct => { ftype := .number, min := some 0, max := some 20 }
  | .currency => { ftype := .string, allowed := some ["EUR", "USD", "GBP"] }
  | .startMonth => { ftype := .date }
  | .utilisationRampMonths => { ftype := .integer, min := some 0, max := some 24 }
  | .resaleRecoveryPctHardware => { ftype := .number, min := some 0, max := some 100 }
  | .maintenancePerVehiclePerYear => { ftype := .number, min := some 0, max := some 1000 }

/-- Value of a list of decimal digit characters. -/
def digitsVal (l : List Char) : ℕ :=
  l.foldl (fun a c => a * 10 + (c.toNat - 48)) 0

/-- Strip an optional leading sign: `true` when it was a minus. -/
def signSplit : List Char → Bool × List Char
  | [] => (false, [])
  | c :: t =>
      if c = '-' then (true, t)
      else if c = '+' then (false, t)
      else (false, c :: t)

/-- The digits of a fractional part: the digit run after a leading dot. -/
def fracDigits : List Char → List Char
  | [] => []
  | c :: t => if c = '.' then t.takeWhile Char.isDigit else []

/-- JavaScript `parseInt(s, 10)`: skip leading whitespace, read an optional
sign and then the longest digit prefix; `NaN` (here `none`) when that prefix
is empty.  Trailing characters are discarded. -/
def parseIntJS (s : String) : Option ℤ :=
  let cs := s.toList.dropWhile Char.isWhitespace
  let p := signSplit cs
  let ds := p.2.takeWhile Char.isDigit
  if ds.isEmpty then none
  else some ((if p.1 then -1 else 1) * (digitsVal ds : ℤ))

/-- The characters of the case-sensitive `Infinity` literal of JavaScript's
`StrDecimalLiteral` grammar. -/
def infinityChars : List Char := ['I', 'n', 'f', 'i', 'n', 'i', 't', 'y']

/-- An exponent part `e`/`E`, an optional sign and at least one digit; when
the digits are missing the exponent part is not part of the longest valid
prefix and is discarded (`parseFloat("1e") = 1`). -/
def parseExp (l : List Char) : Option (Bool × ℕ) :=
  match l with
  | [] => none
  | c :: t =>
      if c = 'e' ∨ c = 'E' then
        let p := signSplit t
        let ds := p.2.takeWhile Char.isDigit
        if ds.isEmpty then none else some (p.1, digitsVal ds)
      else none

/-- JavaScript `parseFloat(s)`: skip leading whitespace, read an optional
sign, then either the literal `Infinity` or a decimal mantissa (digits with an
optional fractional part — at least one digit in total) with an optional
exponent part; the result is `NaN` when nothing parsed.  Trailing characters
are discarded.  Values are exact rationals: the float rounding and the
overflow of huge exponents to `Infinity` are idealised away, as is all other
arithmetic in this development. -/
def parseFloatJS (s : String) : JSN :=
  let cs := s.toList.dropWhile Char.isWhitespace
  let p := signSplit cs
  if p.2.take 8 = infinityChars then (if p.1 then .ninf else .inf)
  else
    let intPart := p.2.takeWhile Char.isDigit
    let afterInt := p.2.dropWhile Char.isDigit
    let fracPart := fracDigits afterInt
    let afterFrac := match afterInt with
      | c :: t => if c = '.' then t.dropWhile Char.isDigit else afterInt
      | [] => []
    if intPart.isEmpty ∧ fracPart.isEmpty then .nan
    else
      let signed := (if p.1 then (-1 : ℚ) else 1) *
        ((digitsVal intPart : ℚ) + (digitsVal fracPart : ℚ) / 10 ^ fracPart.length)
      match parseExp afterFrac with
      | some (eneg, e) => .fin (if eneg then signed / 10 ^ e else signed * 10 ^ e)
      | none => .fin signed

/-- Truncation toward zero: the value of `parseInt(String(q), 10)` for a
finite JS number `q` (idealised for magnitudes that `String` would render in
exponent form, which the schema's bounds exclude anyway). -/
def jsTrunc (q : ℚ) : ℤ :=
  if 0 ≤ q then ⌊q⌋ else ⌈q⌉

/-- The `YYYY-MM` check of `coerceValue`'s `date` branch: the regular
expression `^\d{4}-\d{2}$` plus the `Date` round-trip, which accepts exactly
months `01..12` and rejects years `0000..0099` (the two-digit-year rule of the
`Date` constructor maps those to `19xx`, failing the `getFullYear` check). -/
def validYYYYMM (s : String) : Bool :=
  match s.toList with
  | [y1, y2, y3, y4, d, m1, m2] =>
      y1.isDigit && y2.isDigit && y3.isDigit && y4.isDigit && (d == '-') &&
      m1.isDigit && m2.isDigit &&
      decide (1 ≤ digitsVal [m1, m2]) && decide (digitsVal [m1, m2] ≤ 12) &&
      !(y1 == '0' && y2 == '0')
  | _ => false

/-- `coerceValue` of the validation module.  `null`, `undefined` and the empty
string map to the absence marker before any type dispatch.  For the `string`
branch on a number, `String(value)` is idealised as `toString`; the only
string-typed field is `currency`, whose claims always supply strings. -/
def coerceValue (v : RawVal) (t : FType) : CVal :=
  if v = RawVal.null ∨ v = RawVal.undef ∨ v = RawVal.str "" then .null
  else
    match t with
    | .integer =>
        match v with
        | .num q => .num ((jsTrunc q : ℤ) : ℚ)
        | .str s => match parseIntJS s with
          | some z => .num ((z : ℤ) : ℚ)
          | none => .null
        | _ => .null
    | .number =>
        match v with
        | .num q => .num q
        | .str s => match parseFloatJS s with
          | .fin q => .num q
          | .inf => .inf
          | .ninf => .ninf
          | .nan => .null
        | _ => .null
    | .string =>
        match v with
        | .str s => .str s
        | .num q => .str (toString q)
        | _ => .null
    | .date =>
        match v with
        | .str s => if validYYYYMM s then .str s else .null
        | _ => .null

end Validation

namespace Validation

/-- The kinds of per-field error the validation module can report, in the
order `validateField` tests them, plus the cross-field ramp/horizon message.
The source reports human-readable strings; only the kind matters to callers. -/
inductive VErr where
  | required
  | notInteger
  | notNumber
  | notString
  | belowMin
  | aboveMax
  | notAllowed
  | crossRamp
deriving DecidableEq, Repr

/-- `Number.isInteger(value)` on a coerced value. -/
def cvIsInteger : CVal → Bool
  | .num q => q.den == 1
  | _ => false

/-- `typeof value === 'number'` on a coerced value; the infinities are
numbers. -/
def cvIsNumber : CVal → Bool
  | .num _ => true
  | .inf => true
  | .ninf => true
  | _ => false

/-- `typeof value === 'string'` on a coerced value. -/
def cvIsString : CVal → Bool
  | .str _ => true
  | _ => false

/-- The `value < schema.min` test, guarded by `typeof value === 'number'`:
`-Infinity` is below every (finite) schema minimum, `Infinity` below none. -/
def belowMinB (v : CVal) (sch : FieldSchema) : Bool :=
  match v, sch.min with
  | CVal.num q, some m => decide (q < m)
  | CVal.ninf, some _ => true
  | _, _ => false

/-- The `value > schema.max` test, guarded by `typeof value === 'number'`:
`Infinity` is above every (finite) schema maximum, `-Infinity` above none. -/
def aboveMaxB (v : CVal) (sch : FieldSchema) : Bool :=
  match v, sch.max with
  | CVal.num q, some m => decide (m < q)
  | CVal.inf, some _ => true
  | _, _ => false

/-- The `schema.allowedValues && !schema.allowedValues.includes(value)` test;
a non-string value is never a member of the (string) allowed list. -/
def allowedFails (v : CVal) (sch : FieldSchema) : Bool :=
  match sch.allowed with
  | some l =>
      match v with
      | CVal.str s => !(l.contains s)
      | _ => true
  | none => false

/-- `validateField` of the validation module: presence, then declared-type
conformance, then inclusive range bounds, then allowed-values membership,
returning the first failure. -/
def validateField (v : CVal) (sch : FieldSchema) : Option VErr :=
  if v = CVal.null then some .required
  else if sch.ftype = FType.integer ∧ cvIsInteger v = false then some .notInteger
  else if sch.ftype = FType.number ∧ cvIsNumber v = false then some .notNumber
  else if sch.ftype = FType.string ∧ cvIsString v = false then some .notString
  else if belowMinB v sch then some .belowMin
  else if aboveMaxB v sch then some .aboveMax
  else if allowedFails v sch then some .notAllowed
  else none

/-- A raw input record: a value (possibly `undefined`) for every schema field. -/
def RawRecord := Field → RawVal

/-- The coerced record built field-by-field by `validateInputs`. -/
def coercedOf (raw : RawRecord) (f : Field) : CVal :=
  coerceValue (raw f) (schema f).ftype

/-- The per-field (non-cross) error for a field in `validateInputs`. -/
def fieldErrorOf (raw : RawRecord) (f : Field) : Option VErr :=
  validateField (coercedOf raw f) (schema f)

/-- JavaScript `ToNumber` as applied by the relational comparison of the
cross-field check: `null` converts to `0`.  Both operands are
integer-coerced fields, so the string and infinity cases cannot arise there
(`parseInt` and truncation only produce finite integers or `null`). -/
def cvToNumJS : CVal → ℚ
  | .num q => q
  | .null => 0
  | _ => 0

/-- `validateCrossFields` of the validation module, as a map from field to
optional error: the only entry it can ever produce is the ramp/horizon
violation keyed by `utilisationRampMonths`.  The start-month branch of the
source only emits a `console.warn` and never adds an entry. -/
def validateCrossFields (coerced : Field → CVal) : Field → Option VErr :=
  fun f =>
    if f = Field.utilisationRampMonths ∧
        cvToNumJS (coerced Field.timeHorizonYears) * 12 <
          cvToNumJS (coerced Field.utilisationRampMonths) then
      some .crossRamp
    else none

/-- The `ValidationResult` record. -/
structure VResult where
  isValid : Bool
  errors : Field → Option VErr
  coercedInputs : Field → CVal

/-- `validateInputs` of the validation module: coerce and validate every
schema field in order, then merge the cross-field errors over the per-field
ones (`Object.assign` overwrites per key), failing validation when any entry
exists. -/
def validateInputs (raw : RawRecord) : VResult :=
  let coerced := fun f => coerceValue (raw f) (schema f).ftype
  let fieldErrs := fun f => validateField (coerced f) (schema f)
  let cross := validateCrossFields coerced
  { isValid := allFields.all (fun f => (fieldErrs f).isNone) &&
      allFields.all (fun f => (cross f).isNone)
    errors := fun f =>
      match cross f with
      | some e => some e
      | none => fieldErrs f
    coercedInputs := coerced }

/-- Point update of a raw record. -/
def updateField (r : RawRecord) (f : Field) (v : RawVal) : RawRecord :=
  fun g => if g = f then v else r g

/-- A concrete raw record with every field present, well-typed and in range
(the documented reference fixture, with a mid-range discount rate and start
month). -/
def baseRaw : RawRecord
  | .vehicleCount => .num 50
  | .annualKmPerVehicle => .num 45000
  | .fuelConsumptionLPer100km => .num (21/2)
  | .fuelPricePerLitre => .num (19/10)
  | .baselineAccidentsPerYear => .num 12
  | .avgAccidentCost => .num 6500
  | .annualInsurancePremium => .num 120000
  | .fuelSavingsPct => .num 6
  | .accidentReductionPct => .num 30
  | .insuranceReductionPct => .num 8
  | .adoptionPct => .num 90
  | .hardwareCostPerVehicle => .num 350
  | .subscriptionPerVehiclePerMonth => .num 35
  | .implementationOneOff => .num 2500
  | .trainingOneOff => .num 1500
  | .timeHorizonYears => .num 3
  | .discountRatePct => .num 5
  | .currency => .str "EUR"
  | .startMonth => .str "2025-06"
  | .utilisationRampMonths => .num 2
  | .resaleRecoveryPctHardware => .num 0
  | .maintenancePerVehiclePerYear => .num 0

end Validation

namespace Validation

/-- View a calculator-inputs record as a raw record (every field present,
numbers as numbers, strings as strings), as when re-validating the output of
the scenario adjuster. -/
def inputsToRaw (i : Formulas.Inputs) : RawRecord
  | .vehicleCount => .num i.vehicleCount
  | .annualKmPerVehicle => .num i.annualKmPerVehicle
  | .fuelConsumptionLPer100km => .num i.fuelConsumptionLPer100km
  | .fuelPricePerLitre => .num i.fuelPricePerLitre
  | .baselineAccidentsPerYear => .num i.baselineAccidentsPerYear
  | .avgAccidentCost => .num i.avgAccidentCost
  | .annualInsurancePremium => .num i.annualInsurancePremium
  | .fuelSavingsPct => .num i.fuelSavingsPct
  | .accidentReductionPct => .num i.accidentReductionPct
  | .insuranceReductionPct => .num i.insuranceReductionPct
  | .adoptionPct => .num i.adoptionPct
  | .hardwareCostPerVehicle => .num i.hardwareCostPerVehicle
  | .subscriptionPerVehiclePerMonth => .num i.subscriptionPerVehiclePerMonth
  | .implementationOneOff => .num i.implementationOneOff
  | .trainingOneOff => .num i.trainingOneOff
  | .timeHorizonYears => .num i.timeHorizonYears
  | .discountRatePct => .num i.discountRatePct
  | .currency => .str i.currency
  | .startMonth => .str i.startMonth
  | .utilisationRampMonths => .num i.utilisationRampMonths
  | .resaleRecoveryPctHardware => .num i.resaleRecoveryPctHardware
  | .maintenancePerVehiclePerYear => .num i.maintenancePerVehiclePerYear

end Validation

/-- The reference fixture with the fuel-savings percentage at its schema
maximum of 50. -/
def exMaxFuel : Formulas.Inputs :=
  { vehicleCount := 50, annualKmPerVehicle := 45000, fuelConsumptionLPer100km := 21/2
    fuelPricePerLitre := 19/10, baselineAccidentsPerYear := 12, avgAccidentCost := 6500
    annualInsurancePremium := 120000, fuelSavingsPct := 50, accidentReductionPct := 30
    insuranceReductionPct := 8, adoptionPct := 90, hardwareCostPerVehicle := 350
    subscriptionPerVehiclePerMonth := 35, implementationOneOff := 2500, trainingOneOff := 1500
    timeHorizonYears := 3, discountRatePct := 5, currency := "EUR", startMonth := "2025-06"
    utilisationRampMonths := 2, resaleRecoveryPctHardware := 0
    maintenancePerVehiclePerYear := 0 }

/-- An input set with no adoption (hence zero savings) and a positive
subscription over a one-year horizon: every month's cumulative net stays
negative. -/
def exNoPayback : Formulas.Inputs :=
  { vehicleCount := 1, annualKmPerVehicle := 1000, fuelConsumptionLPer100km := 10
    fuelPricePerLitre := 1, baselineAccidentsPerYear := 0, avgAccidentCost := 100
    annualInsurancePremium := 1000, fuelSavingsPct := 0, accidentReductionPct := 0
    insuranceReductionPct := 0, adoptionPct := 0, hardwareCostPerVehicle := 0
    subscriptionPerVehiclePerMonth := 12, implementationOneOff := 0, trainingOneOff := 0
    timeHorizonYears := 1, discountRatePct := 0, currency := "EUR", startMonth := "2025-06"
    utilisationRampMonths := 0, resaleRecoveryPctHardware := 0
    maintenancePerVehiclePerYear := 0 }

/-- An input set whose program costs are all zero while savings are positive. -/
def exZeroCostFull : Formulas.Inputs :=
  { vehicleCount := 1, annualKmPerVehicle := 10000, fuelConsumptionLPer100km := 10
    fuelPricePerLitre := 1, baselineAccidentsPerYear := 0, avgAccidentCost := 100
    annualInsurancePremium := 1000, fuelSavingsPct := 10, accidentReductionPct := 0
    insuranceReductionPct := 0, adoptionPct := 100, hardwareCostPerVehicle := 0
    subscriptionPerVehiclePerMonth := 0, implementationOneOff := 0, trainingOneOff := 0
    timeHorizonYears := 1, discountRatePct := 0, currency := "EUR", startMonth := "2025-06"
    utilisationRampMonths := 0, resaleRecoveryPctHardware := 0
    maintenancePerVehiclePerYear := 0 }

/-- An input set with zero savings, zero subscription and positive hardware
cost: the reduced engine's net monthly flow is exactly zero while its initial
costs are positive. -/
def exZeroNet : Formulas.Inputs :=
  { vehicleCount := 1, annualKmPerVehicle := 1000, fuelConsumptionLPer100km := 10
    fuelPricePerLitre := 1, baselineAccidentsPerYear := 0, avgAccidentCost := 100
    annualInsurancePremium := 1000, fuelSavingsPct := 0, accidentReductionPct := 0
    insuranceReductionPct := 0, adoptionPct := 0, hardwareCostPerVehicle := 100
    subscriptionPerVehiclePerMonth := 0, implementationOneOff := 0, trainingOneOff := 0
    timeHorizonYears := 1, discountRatePct := 0, currency := "EUR", startMonth := "2025-06"
    utilisationRampMonths := 0, resaleRecoveryPctHardware := 0
    maintenancePerVehiclePerYear := 0 }

/-- A simple-calculator data record whose total costs are zero (no one-off
costs, no subscription) while annual savings are positive. -/
def exZeroCostSimple : SimpleCalc.Data :=
  { vehicleCount := 1, annualKmPerVehicle := 10000, fuelConsumptionLPer100km := 10
    fuelPricePerLitre := 1, baselineAccidentsPerYear := 0, avgAccidentCost := 100
    annualInsurancePremium := 1000, fuelSavingsPct := 10, accidentReductionPct := 0
    insuranceReductionPct := 0, adoptionPct := 100, subscriptionPerVehiclePerMonth := 0
    implementationOneOff := 0, trainingOneOff := 0, timeHorizonYears := 3, currency := "EUR" }

/-- A simple-calculator data record with positive net monthly flow and
positive one-off costs. -/
def exPosNetSimple : SimpleCalc.Data :=
  { vehicleCount := 1, annualKmPerVehicle := 12000, fuelConsumptionLPer100km := 10
    fuelPricePerLitre := 1, baselineAccidentsPerYear := 0, avgAccidentCost := 100
    annualInsurancePremium := 1000, fuelSavingsPct := 10, accidentReductionPct := 0
    insuranceReductionPct := 0, adoptionPct := 100, subscriptionPerVehiclePerMonth := 1
    implementationOneOff := 10, trainingOneOff := 5, timeHorizonYears := 3, currency := "EUR" }

/-- The reference raw record with the string "3.7" supplied for the
integer-typed `vehicleCount` field. -/
def exRaw37 : Validation.RawRecord :=
  Validation.updateField Validation.baseRaw .vehicleCount (.str "3.7")

/-- The reference raw record with a one-year horizon and a 13-month
utilisation ramp: the ramp is in its own field range but exceeds the horizon. -/
def exRawCross : Validation.RawRecord :=
  Validation.updateField (Validation.updateField Validation.baseRaw .timeHorizonYears (.num 1))
    .utilisationRampMonths (.num 13)

/-- The reference raw record with the string "12abc" supplied for the
number-typed `fuelSavingsPct` field. -/
def exRaw12abc : Validation.RawRecord :=
  Validation.updateField Validation.baseRaw .fuelSavingsPct (.str "12abc")

/-! ## General lemmas -/

/-- Indexing (with default) into a map over `List.range`. -/
theorem getD_map_range {α : Type} (f : ℕ → α) (d : α) {i N : ℕ} (h : i < N) :
    ((List.range N).map f).getD i d = f i := by
  rw [List.getD_eq_getElem?_getD, List.getElem?_map, List.getElem?_range h]
  rfl

/-- The payback scan never goes past the end of the array. -/
theorem calculatePayback_le_length (l : List ℚ) :
    Formulas.calculatePayback l ≤ l.length := by
  induction l with
  | nil => simp [Formulas.calculatePayback]
  | cons x xs ih =>
      by_cases h : (0 : ℚ) ≤ x
      · simp [Formulas.calculatePayback, h]
      · simp [Formulas.calculatePayback, h]
        omega

/-- When every cumulative value is negative, the scan falls through and
returns the array length. -/
theorem calculatePayback_of_all_neg (l : List ℚ) (h : ∀ x ∈ l, x < 0) :
    Formulas.calculatePayback l = l.length := by
  induction l with
  | nil => simp [Formulas.calculatePayback]
  | cons x xs ih =>
      have hx : ¬ (0 : ℚ) ≤ x := not_le.mpr (h x (List.mem_cons_self x xs))
      simp [Formulas.calculatePayback, hx]
      exact ih (fun y hy => h y (List.mem_cons_of_mem x hy))

/-- When some cumulative value is nonnegative, the scan returns the first
1-indexed position whose value is nonnegative. -/
theorem calculatePayback_found (l : List ℚ) (h : ∃ x ∈ l, 0 ≤ x) :
    1 ≤ Formulas.calculatePayback l ∧
    0 ≤ l.getD (Formulas.calculatePayback l - 1) 0 ∧
    ∀ j, j < Formulas.calculatePayback l - 1 → l.getD j 0 < 0 := by
  induction l with
  | nil => obtain ⟨x, hx, _⟩ := h; simp at hx
  | cons x xs ih =>
      by_cases hx : (0 : ℚ) ≤ x
      · refine ⟨by simp [Formulas.calculatePayback, hx], ?_, ?_⟩
        · simp [Formulas.calculatePayback, hx, hx]
        · intro j hj
          simp [Formulas.calculatePayback, hx] at hj
      · have hxs : ∃ y ∈ xs, 0 ≤ y := by
          obtain ⟨y, hy, hy0⟩ := h
          rcases List.mem_cons.mp hy with rfl | hmem
          · exact absurd hy0 hx
          · exact ⟨y, hmem, hy0⟩
        obtain ⟨h1, h2, h3⟩ := ih hxs
        have hp : Formulas.calculatePayback (x :: xs) =
            Formulas.calculatePayback xs + 1 := by
          simp [Formulas.calculatePayback, hx]
        refine ⟨by omega, ?_, ?_⟩
        · rw [hp]
          rw [show Formulas.calculatePayback xs + 1 - 1 =
              (Formulas.calculatePayback xs - 1) + 1 from by omega, List.getD_cons_succ]
          exact h2
        · intro j hj
          rw [hp] at hj
          match j with
          | 0 => simpa using not_le.mp hx
          | k + 1 =>
              rw [List.getD_cons_succ]
              exact h3 k (by omega)

/-- `validateField` never reports the cross-field ramp error. -/
theorem validateField_ne_crossRamp (v : Validation.CVal) (sch : Validation.FieldSchema) :
    Validation.validateField v sch ≠ some .crossRamp := by
  unfold Validation.validateField
  split_ifs <;> simp

/-- `validateField` never reports an integer-type error on a value whose
`Number.isInteger` test passes, nor on the absence marker. -/
theorem validateField_ne_notInteger (v : Validation.CVal) (sch : Validation.FieldSchema)
    (h : v = Validation.CVal.null ∨ Validation.cvIsInteger v = true) :
    Validation.validateField v sch ≠ some .notInteger := by
  unfold Validation.validateField
  rcases h with rfl | h
  · simp
  · split_ifs with h1 h2 <;> simp_all

/-! ## Claim theorems -/

/-- Claim C1: for every input, the payback month returned by the full engine
is the smallest 1-indexed month whose cumulative net is nonnegative; when no
month within the horizon qualifies it is the sentinel `timeHorizonYears * 12`;
and it never exceeds the horizon length. -/
theorem claim1_payback_spec (inputs : Formulas.Inputs) :
    (Formulas.calculateROI inputs).paybackMonths ≤ inputs.timeHorizonYears * 12 ∧
    ((∃ x ∈ (Formulas.calculateROI inputs).timeline.cumNetMonthly, 0 ≤ x) →
      1 ≤ (Formulas.calculateROI inputs).paybackMonths ∧
      0 ≤ (Formulas.calculateROI inputs).timeline.cumNetMonthly.getD
        ((Formulas.calculateROI inputs).paybackMonths - 1) 0 ∧
      ∀ j, j < (Formulas.calculateROI inputs).paybackMonths - 1 →
        (Formulas.calculateROI inputs).timeline.cumNetMonthly.getD j 0 < 0) ∧
    ((∀ x ∈ (Formulas.calculateROI inputs).timeline.cumNetMonthly, x < 0) →
      (Formulas.calculateROI inputs).paybackMonths = inputs.timeHorizonYears * 12) := by
  have hlen : (Formulas.calculateROI inputs).timeline.cumNetMonthly.length =
      inputs.timeHorizonYears * 12 := by
    simp [Formulas.calculateROI, Formulas.calculateTimeline]
  have hpb : (Formulas.calculateROI inputs).paybackMonths =
      Formulas.calculatePayback (Formulas.calculateROI inputs).timeline.cumNetMonthly := rfl
  refine ⟨?_, ?_, ?_⟩
  · rw [hpb, ← hlen]
    exact calculatePayback_le_length _
  · intro h
    rw [hpb]
    exact calculatePayback_found _ h
  · intro h
    rw [hpb, calculatePayback_of_all_neg _ h, hlen]

unseal Rat.mul Rat.inv Rat.add Rat.sub Rat.ofScientific in
/-- Witness for C1: a no-adoption input over one year with a positive
subscription never pays back, and the engine returns the sentinel 12. -/
theorem claim1_payback_spec_witness :
    (Formulas.calculateROI exNoPayback).paybackMonths = 12 :=
  (claim1_payback_spec exNoPayback).2.2 (by decide)

/-- Claim C2 (amended): in the full engine, the simple ROI is 0 when the
total costs over the horizon are exactly 0, and otherwise equals
`(totalSavings - totalCosts) / totalCosts * 100`.  (The reduced variant
engines divide unguarded; see the counterexample.) -/
theorem claim2_full_roi_guard (inputs : Formulas.Inputs) :
    (Formulas.totalCostsOf inputs = 0 → (Formulas.calculateROI inputs).roiSimplePct = 0) ∧
    (Formulas.totalCostsOf inputs ≠ 0 →
      (Formulas.calculateROI inputs).roiSimplePct =
        (Formulas.totalSavingsAnnualOf inputs * (inputs.timeHorizonYears : ℚ) -
          Formulas.totalCostsOf inputs) / Formulas.totalCostsOf inputs * 100) := by
  have hroi : (Formulas.calculateROI inputs).roiSimplePct =
      Formulas.calculateSimpleROI
        (Formulas.totalSavingsAnnualOf inputs * (inputs.timeHorizonYears : ℚ))
        (Formulas.totalCostsOf inputs) := rfl
  constructor
  · intro h
    rw [hroi, Formulas.calculateSimpleROI, if_pos h]
  · intro h
    rw [hroi, Formulas.calculateSimpleROI, if_neg h]

unseal Rat.mul Rat.inv Rat.add Rat.sub Rat.ofScientific in
/-- Witness for C2: an input set with zero hardware, subscription, one-off and
maintenance costs has `totalCosts = 0` and the full engine reports ROI 0. -/
theorem claim2_full_roi_guard_witness :
    Formulas.totalCostsOf exZeroCostFull = 0 ∧
    (Formulas.calculateROI exZeroCostFull).roiSimplePct = 0 :=
  ⟨by decide, (claim2_full_roi_guard exZeroCostFull).1 (by decide)⟩

unseal Rat.mul Rat.inv Rat.add Rat.sub Rat.ofScientific in
/-- Counterexample to C2 as stated: the src/src simplified calculator divides
by its total costs unguarded, so on an input whose total costs are 0 (no
one-off costs and no subscription) with positive savings the ROI is
`Infinity`, not 0. -/
theorem claim2_counterexample :
    (exZeroCostSimple.implementationOneOff + exZeroCostSimple.trainingOneOff) +
      (exZeroCostSimple.vehicleCount * exZeroCostSimple.subscriptionPerVehiclePerMonth * 12) *
        exZeroCostSimple.timeHorizonYears = 0 ∧
    (SimpleCalc.calculate exZeroCostSimple).roiSimplePct = JSN.inf :=
  ⟨by decide, by decide⟩

/-- Claim C3: both scenario adjusters are the identity on `base` and on every
unrecognized scenario string, and `conservative`/`aggressive` multiply exactly
the three sensitivity percentages by 0.75/1.25, leaving all other fields
unchanged. -/
theorem claim3_applyScenario_spec (inputs : Formulas.Inputs) (scenario : String) :
    (scenario ≠ "conservative" → scenario ≠ "aggressive" →
      Formulas.applyScenario inputs scenario = inputs ∧
      SimpleFormulas.applyScenario inputs scenario = inputs) ∧
    (Formulas.applyScenario inputs "conservative" =
      { inputs with
        fuelSavingsPct := inputs.fuelSavingsPct * 0.75
        accidentReductionPct := inputs.accidentReductionPct * 0.75
        insuranceReductionPct := inputs.insuranceReductionPct * 0.75 } ∧
      SimpleFormulas.applyScenario inputs "conservative" =
      { inputs with
        fuelSavingsPct := inputs.fuelSavingsPct * 0.75
        accidentReductionPct := inputs.accidentReductionPct * 0.75
        insuranceReductionPct := inputs.insuranceReductionPct * 0.75 }) ∧
    (Formulas.applyScenario inputs "aggressive" =
      { inputs with
        fuelSavingsPct := inputs.fuelSavingsPct * 1.25
        accidentReductionPct := inputs.accidentReductionPct * 1.25
        insuranceReductionPct := inputs.insuranceReductionPct * 1.25 } ∧
      SimpleFormulas.applyScenario inputs "aggressive" =
      { inputs with
        fuelSavingsPct := inputs.fuelSavingsPct * 1.25
        accidentReductionPct := inputs.accidentReductionPct * 1.25
        insuranceReductionPct := inputs.insuranceReductionPct * 1.25 }) := by
  refine ⟨fun h1 h2 => ⟨?_, ?_⟩, ⟨?_, ?_⟩, ⟨?_, ?_⟩⟩
  · simp [Formulas.applyScenario, h1, h2]
  · simp [SimpleFormulas.applyScenario, h1, h2]
  · simp [Formulas.applyScenario]
  · simp [SimpleFormulas.applyScenario]
  · simp [Formulas.applyScenario]
  · simp [SimpleFormulas.applyScenario]

/-- Witness for C3: at the reference fixture, the unrecognized string
`"base"` leaves both adjusters' outputs equal to the input. -/
theorem claim3_applyScenario_spec_witness :
    Formulas.applyScenario exMaxFuel "base" = exMaxFuel ∧
    SimpleFormulas.applyScenario exMaxFuel "base" = exMaxFuel :=
  (claim3_applyScenario_spec exMaxFuel "base").1 (by decide) (by decide)

/-- Claim C4: within the horizon, the ramp factor applied to monthly savings
is `(i+1)/utilisationRampMonths` while `i < utilisationRampMonths` and `1`
afterwards; with a zero ramp it is `1` from the first month, and the ramp
divisor is nonzero whenever the dividing branch is taken. -/
theorem claim4_rampFactor_spec (inputs : Formulas.Inputs) (savings : Formulas.SavingsTotals)
    (costs : Formulas.ProgramCosts) (i : ℕ) (hi : i < inputs.timeHorizonYears * 12) :
    (Formulas.calculateTimeline inputs savings costs).savingsMonthly.getD i 0 =
      savings.totalSavingsAnnual / 12 * Formulas.rampFactor inputs.utilisationRampMonths i ∧
    (i < inputs.utilisationRampMonths →
      Formulas.rampFactor inputs.utilisationRampMonths i =
        ((i : ℚ) + 1) / (inputs.utilisationRampMonths : ℚ) ∧
      (inputs.utilisationRampMonths : ℚ) ≠ 0) ∧
    (inputs.utilisationRampMonths ≤ i →
      Formulas.rampFactor inputs.utilisationRampMonths i = 1) ∧
    (inputs.utilisationRampMonths = 0 →
      Formulas.rampFactor inputs.utilisationRampMonths i = 1) := by
  refine ⟨?_, fun h => ⟨?_, ?_⟩, fun h => ?_, fun h => ?_⟩
  · show ((List.range (inputs.timeHorizonYears * 12)).map
        (Formulas.savingsAt savings.totalSavingsAnnual inputs.utilisationRampMonths)).getD i 0 =
      _
    rw [getD_map_range _ _ hi]
    rfl
  · rw [Formulas.rampFactor, if_pos h]
  · exact Nat.cast_ne_zero.mpr (by omega)
  · rw [Formulas.rampFactor, if_neg (by omega)]
  · rw [Formulas.rampFactor, if_neg (by omega)]

unseal Rat.mul Rat.inv Rat.add Rat.sub Rat.ofScientific in
/-- Witness for C4: at the reference fixture (two ramp months), month 0's
savings entry carries the ramp factor. -/
theorem claim4_rampFactor_spec_witness :
    (Formulas.calculateTimeline exMaxFuel ⟨Formulas.totalSavingsAnnualOf exMaxFuel⟩
        (Formulas.calculateProgramCosts exMaxFuel)).savingsMonthly.getD 0 0 =
      Formulas.totalSavingsAnnualOf exMaxFuel / 12 *
        Formulas.rampFactor exMaxFuel.utilisationRampMonths 0 :=
  (claim4_rampFactor_spec exMaxFuel ⟨Formulas.totalSavingsAnnualOf exMaxFuel⟩
    (Formulas.calculateProgramCosts exMaxFuel) 0 (by decide)).1

/-- Claim C5 (amended): the src/src simplified calculator returns
`ceil(oneOffCosts / netMonthly)` when the net monthly flow is positive and the
explicit `null` ("Never") otherwise.  (The backup reduced engine divides
unguarded; see the counterexample.) -/
theorem claim5_simpleCalc_payback (d : SimpleCalc.Data) :
    (0 < SimpleCalc.netMonthlyOf d →
      (SimpleCalc.calculate d).paybackMonths =
        some ⌈(d.implementationOneOff + d.trainingOneOff) / SimpleCalc.netMonthlyOf d⌉) ∧
    (SimpleCalc.netMonthlyOf d ≤ 0 → (SimpleCalc.calculate d).paybackMonths = none) := by
  have hpb : (SimpleCalc.calculate d).paybackMonths =
      if 0 < SimpleCalc.netMonthlyOf d then
        some ⌈(d.implementationOneOff + d.trainingOneOff) / SimpleCalc.netMonthlyOf d⌉
      else none := rfl
  constructor
  · intro h
    rw [hpb, if_pos h]
  · intro h
    rw [hpb, if_neg (not_lt.mpr h)]

unseal Rat.mul Rat.inv Rat.add Rat.sub Rat.ofScientific in
/-- Witness for C5: a concrete record with positive net monthly flow (9) and
one-off costs 15 pays back in `ceil(15/9) = 2` months. -/
theorem claim5_simpleCalc_payback_witness :
    (SimpleCalc.calculate exPosNetSimple).paybackMonths = some 2 := by
  rw [(claim5_simpleCalc_payback exPosNetSimple).1 (by decide)]
  decide

unseal Rat.mul Rat.inv Rat.add Rat.sub Rat.ofScientific in
/-- Counterexample to C5 as stated: the backup reduced engine
(simple-formulas.js) computes `Math.ceil(initialCosts / netMonthlySavings)`
unguarded, so with zero net monthly savings and positive initial costs it
returns `Infinity` instead of an explicit "never" result. -/
theorem claim5_counterexample :
    (SimpleFormulas.calculateROI exZeroNet).paybackMonths = JSN.inf := by
  decide

/-- Coercion to an integer field yields the absence marker or an integral
number — never a fractional number or a string. -/
theorem coerceValue_integer_shape (v : Validation.RawVal) :
    Validation.coerceValue v .integer = .null ∨
    ∃ z : ℤ, Validation.coerceValue v .integer = .num (z : ℚ) := by
  cases v with
  | null => left; simp [Validation.coerceValue]
  | undef => left; simp [Validation.coerceValue]
  | num q => right; exact ⟨Validation.jsTrunc q, by simp [Validation.coerceValue]⟩
  | str s =>
      by_cases hs : s = ""
      · left; simp [Validation.coerceValue, hs]
      · cases hp : Validation.parseIntJS s with
        | none => left; simp [Validation.coerceValue, hs, hp]
        | some z => right; exact ⟨z, by simp [Validation.coerceValue, hs, hp]⟩

/-- Claim C6 (amended): within `validateField` the checks run in the order
presence, type, range, enum — but `validateInputs` coerces before validating,
and integer coercion (`parseInt`) truncates, so a present non-integer value
for an integer field can never reach the integer-type error: it is either
truncated to an accepted integer or marked absent. -/
theorem claim6_integer_coercion (sch : Validation.FieldSchema) :
    Validation.validateField .null sch = some .required ∧
    (∀ v : Validation.RawVal,
      Validation.validateField (Validation.coerceValue v .integer) sch ≠
        some .notInteger) ∧
    (∀ s : String,
      Validation.coerceValue (.str s) .integer = .null ∨
      ∃ z : ℤ, Validation.coerceValue (.str s) .integer = .num (z : ℚ)) := by
  refine ⟨by simp [Validation.validateField], ?_, fun s => coerceValue_integer_shape (.str s)⟩
  intro v
  rcases coerceValue_integer_shape v with h | ⟨z, h⟩ <;> rw [h]
  · exact validateField_ne_notInteger _ _ (Or.inl rfl)
  · exact validateField_ne_notInteger _ _ (Or.inr (by simp [Validation.cvIsInteger]))

unseal Rat.mul Rat.inv Rat.add Rat.sub Rat.ofScientific in
/-- Counterexample to C6 as stated: the string "3.7" supplied for the
integer-typed `vehicleCount` field is truncated to 3 by `parseInt` and
accepted — validation passes with no error for the field, rather than
reporting a type error. -/
theorem claim6_counterexample :
    (Validation.validateInputs exRaw37).isValid = true ∧
    (Validation.validateInputs exRaw37).errors .vehicleCount = none ∧
    (Validation.validateInputs exRaw37).coercedInputs .vehicleCount = .num 3 :=
  ⟨by decide, by decide, by decide⟩

/-- The error map of `validateInputs`: cross-field entries overwrite
per-field ones (`Object.assign`). -/
theorem validateInputs_errors_def (raw : Validation.RawRecord) (f : Validation.Field) :
    (Validation.validateInputs raw).errors f =
      match Validation.validateCrossFields (Validation.coercedOf raw) f with
      | some e => some e
      | none => Validation.fieldErrorOf raw f := rfl

/-- Validity in `validateInputs`: no per-field error and no cross-field
error. -/
theorem validateInputs_isValid_def (raw : Validation.RawRecord) :
    (Validation.validateInputs raw).isValid =
      ((Validation.allFields.all fun f => (Validation.fieldErrorOf raw f).isNone) &&
        (Validation.allFields.all fun f =>
          (Validation.validateCrossFields (Validation.coercedOf raw) f).isNone)) := rfl

/-- Coercion of a `date` field yields the absence marker or a string. -/
theorem coerceValue_date_shape (v : Validation.RawVal) :
    Validation.coerceValue v .date = .null ∨
    ∃ s, Validation.coerceValue v .date = .str s := by
  cases v with
  | null => left; simp [Validation.coerceValue]
  | undef => left; simp [Validation.coerceValue]
  | num q => left; simp [Validation.coerceValue]
  | str s =>
      by_cases hs : s = ""
      · left; simp [Validation.coerceValue, hs]
      · by_cases hv : Validation.validYYYYMM s
        · right; exact ⟨s, by simp [Validation.coerceValue, hs, hv]⟩
        · left; simp [Validation.coerceValue, hs, hv]

/-- Claim C7: the cross-field ramp/horizon rule fails validation with an
error keyed by `utilisationRampMonths` exactly when the coerced ramp exceeds
the coerced horizon in months; otherwise no cross-field entry appears; and
the start month's value — in particular one in the past — never affects the
outcome beyond its own date-format check: any two validly-formatted start
months yield identical validity and identical error maps. -/
theorem claim7_crossfield_spec :
    (∀ raw : Validation.RawRecord,
      Validation.cvToNumJS (Validation.coercedOf raw .timeHorizonYears) * 12 <
          Validation.cvToNumJS (Validation.coercedOf raw .utilisationRampMonths) →
        (Validation.validateInputs raw).isValid = false ∧
        (Validation.validateInputs raw).errors .utilisationRampMonths = some .crossRamp) ∧
    (∀ raw : Validation.RawRecord,
      ¬(Validation.cvToNumJS (Validation.coercedOf raw .timeHorizonYears) * 12 <
          Validation.cvToNumJS (Validation.coercedOf raw .utilisationRampMonths)) →
        (Validation.validateInputs raw).errors .utilisationRampMonths =
          Validation.fieldErrorOf raw .utilisationRampMonths ∧
        (Validation.validateInputs raw).errors .utilisationRampMonths ≠ some .crossRamp) ∧
    (∀ (raw : Validation.RawRecord) (v₁ v₂ : Validation.RawVal),
      Validation.coerceValue v₁ .date ≠ .null →
      Validation.coerceValue v₂ .date ≠ .null →
        (Validation.validateInputs (Validation.updateField raw .startMonth v₁)).isValid =
          (Validation.validateInputs (Validation.updateField raw .startMonth v₂)).isValid ∧
        ∀ f, (Validation.validateInputs (Validation.updateField raw .startMonth v₁)).errors f =
          (Validation.validateInputs (Validation.updateField raw .startMonth v₂)).errors f) := by
  refine ⟨?_, ?_, ?_⟩
  · intro raw h
    have hcross : Validation.validateCrossFields (Validation.coercedOf raw)
        .utilisationRampMonths = some .crossRamp := by
      simp [Validation.validateCrossFields, h]
    refine ⟨?_, ?_⟩
    · rw [validateInputs_isValid_def]
      have hall : (Validation.allFields.all fun f =>
          (Validation.validateCrossFields (Validation.coercedOf raw) f).isNone) = false := by
        rw [List.all_eq_false]
        exact ⟨.utilisationRampMonths, by decide, by simp [hcross]⟩
      rw [hall, Bool.and_false]
    · rw [validateInputs_errors_def, hcross]
  · intro raw h
    have hcross : Validation.validateCrossFields (Validation.coercedOf raw)
        .utilisationRampMonths = none := by
      simp [Validation.validateCrossFields, h]
    refine ⟨?_, ?_⟩
    · rw [validateInputs_errors_def, hcross]
    · rw [validateInputs_errors_def, hcross]
      exact validateField_ne_crossRamp _ _
  · intro raw v₁ v₂ h₁ h₂
    have hc : ∀ (v : Validation.RawVal) (f : Validation.Field), f ≠ .startMonth →
        Validation.coercedOf (Validation.updateField raw .startMonth v) f =
          Validation.coercedOf raw f := by
      intro v f hf
      simp [Validation.coercedOf, Validation.updateField, hf]
    have hdate : ∀ v : Validation.RawVal, Validation.coerceValue v .date ≠ .null →
        Validation.fieldErrorOf (Validation.updateField raw .startMonth v) .startMonth =
          none := by
      intro v hv
      obtain ⟨s, hs⟩ := (coerceValue_date_shape v).resolve_left (by exact hv)
      have hcv : Validation.coercedOf (Validation.updateField raw .startMonth v)
          .startMonth = .str s := by
        simp [Validation.coercedOf, Validation.updateField, Validation.schema, hs]
      rw [Validation.fieldErrorOf, hcv]
      simp [Validation.validateField, Validation.schema, Validation.belowMinB,
        Validation.aboveMaxB, Validation.allowedFails]
    have hfe : ∀ f, Validation.fieldErrorOf (Validation.updateField raw .startMonth v₁) f =
        Validation.fieldErrorOf (Validation.updateField raw .startMonth v₂) f := by
      intro f
      by_cases hf : f = .startMonth
      · subst hf
        rw [hdate v₁ h₁, hdate v₂ h₂]
      · simp [Validation.fieldErrorOf, hc v₁ f hf, hc v₂ f hf]
    have hcr : Validation.validateCrossFields
        (Validation.coercedOf (Validation.updateField raw .startMonth v₁)) =
      Validation.validateCrossFields
        (Validation.coercedOf (Validation.updateField raw .startMonth v₂)) := by
      funext f
      rw [Validation.validateCrossFields, Validation.validateCrossFields,
        hc v₁ .timeHorizonYears (by decide), hc v₁ .utilisationRampMonths (by decide),
        hc v₂ .timeHorizonYears (by decide), hc v₂ .utilisationRampMonths (by decide)]
    refine ⟨?_, ?_⟩
    · rw [validateInputs_isValid_def, validateInputs_isValid_def, hcr,
        show (fun f => (Validation.fieldErrorOf
            (Validation.updateField raw .startMonth v₁) f).isNone) =
          (fun f => (Validation.fieldErrorOf
            (Validation.updateField raw .startMonth v₂) f).isNone) from
          funext fun f => by rw [hfe f]]
    · intro f
      rw [validateInputs_errors_def, validateInputs_errors_def, hcr]
      cases hx : Validation.validateCrossFields
          (Validation.coercedOf (Validation.updateField raw .startMonth v₂)) f with
      | some e => rfl
      | none => simpa using hfe f

unseal Rat.mul Rat.inv Rat.add Rat.sub Rat.ofScientific in
/-- Witness for C7: a one-year horizon with a 13-month ramp fails validation
with the cross-field error on the ramp field, and two validly-formatted start
months — one in the past, one in the future — validate identically. -/
theorem claim7_crossfield_spec_witness :
    (Validation.validateInputs exRawCross).isValid = false ∧
    (Validation.validateInputs exRawCross).errors .utilisationRampMonths =
      some .crossRamp ∧
    (Validation.validateInputs
        (Validation.updateField Validation.baseRaw .startMonth (.str "2020-01"))).isValid =
      (Validation.validateInputs
        (Validation.updateField Validation.baseRaw .startMonth (.str "2030-12"))).isValid :=
  ⟨(claim7_crossfield_spec.1 exRawCross (by decide)).1,
   (claim7_crossfield_spec.1 exRawCross (by decide)).2,
   (claim7_crossfield_spec.2.2 Validation.baseRaw (.str "2020-01") (.str "2030-12")
     (by decide) (by decide)).1⟩

/-- Claim C8: all five timeline arrays have length `timeHorizonYears * 12`,
and the cumulative-net sequence satisfies `cumNet[0] = net[0]` and
`cumNet[i] = cumNet[i-1] + net[i]`, where `net[i] = savings[i] - costs[i]`. -/
theorem claim8_timeline_recurrence (inputs : Formulas.Inputs)
    (savings : Formulas.SavingsTotals) (costs : Formulas.ProgramCosts) :
    (Formulas.calculateTimeline inputs savings costs).months.length =
      inputs.timeHorizonYears * 12 ∧
    (Formulas.calculateTimeline inputs savings costs).savingsMonthly.length =
      inputs.timeHorizonYears * 12 ∧
    (Formulas.calculateTimeline inputs savings costs).costsMonthly.length =
      inputs.timeHorizonYears * 12 ∧
    (Formulas.calculateTimeline inputs savings costs).netMonthly.length =
      inputs.timeHorizonYears * 12 ∧
    (Formulas.calculateTimeline inputs savings costs).cumNetMonthly.length =
      inputs.timeHorizonYears * 12 ∧
    (Formulas.calculateTimeline inputs savings costs).cumNetMonthly.getD 0 0 =
      (Formulas.calculateTimeline inputs savings costs).netMonthly.getD 0 0 ∧
    (∀ i, 1 ≤ i → i < inputs.timeHorizonYears * 12 →
      (Formulas.calculateTimeline inputs savings costs).cumNetMonthly.getD i 0 =
        (Formulas.calculateTimeline inputs savings costs).cumNetMonthly.getD (i - 1) 0 +
        (Formulas.calculateTimeline inputs savings costs).netMonthly.getD i 0) ∧
    (∀ i, i < inputs.timeHorizonYears * 12 →
      (Formulas.calculateTimeline inputs savings costs).netMonthly.getD i 0 =
        (Formulas.calculateTimeline inputs savings costs).savingsMonthly.getD i 0 -
        (Formulas.calculateTimeline inputs savings costs).costsMonthly.getD i 0) := by
  have hcum : ∀ j, j < inputs.timeHorizonYears * 12 →
      (Formulas.calculateTimeline inputs savings costs).cumNetMonthly.getD j 0 =
        Formulas.cumAt savings.totalSavingsAnnual inputs.utilisationRampMonths costs
          inputs.resaleRecoveryPctHardware (inputs.timeHorizonYears * 12) j :=
    fun j hj => getD_map_range _ _ hj
  have hnet : ∀ j, j < inputs.timeHorizonYears * 12 →
      (Formulas.calculateTimeline inputs savings costs).netMonthly.getD j 0 =
        Formulas.netAt savings.totalSavingsAnnual inputs.utilisationRampMonths costs
          inputs.resaleRecoveryPctHardware (inputs.timeHorizonYears * 12) j :=
    fun j hj => getD_map_range _ _ hj
  have hsav : ∀ j, j < inputs.timeHorizonYears * 12 →
      (Formulas.calculateTimeline inputs savings costs).savingsMonthly.getD j 0 =
        Formulas.savingsAt savings.totalSavingsAnnual inputs.utilisationRampMonths j :=
    fun j hj => getD_map_range _ _ hj
  have hcost : ∀ j, j < inputs.timeHorizonYears * 12 →
      (Formulas.calculateTimeline inputs savings costs).costsMonthly.getD j 0 =
        Formulas.costsAt costs inputs.resaleRecoveryPctHardware
          (inputs.timeHorizonYears * 12) j :=
    fun j hj => getD_map_range _ _ hj
  have hlen : ∀ f : ℕ → ℚ,
      ((List.range (inputs.timeHorizonYears * 12)).map f).length =
        inputs.timeHorizonYears * 12 := by
    intro f
    rw [List.length_map, List.length_range]
  refine ⟨?_, ?_, ?_, ?_, ?_, ?_, ?_, ?_⟩
  · show ((List.range (inputs.timeHorizonYears * 12)).map
        (fun i : ℕ => (i : ℚ) + 1)).length = inputs.timeHorizonYears * 12
    exact hlen _
  · show ((List.range (inputs.timeHorizonYears * 12)).map
        (Formulas.savingsAt savings.totalSavingsAnnual
          inputs.utilisationRampMonths)).length = inputs.timeHorizonYears * 12
    exact hlen _
  · show ((List.range (inputs.timeHorizonYears * 12)).map
        (Formulas.costsAt costs inputs.resaleRecoveryPctHardware
          (inputs.timeHorizonYears * 12))).length = inputs.timeHorizonYears * 12
    exact hlen _
  · show ((List.range (inputs.timeHorizonYears * 12)).map
        (Formulas.netAt savings.totalSavingsAnnual inputs.utilisationRampMonths costs
          inputs.resaleRecoveryPctHardware (inputs.timeHorizonYears * 12))).length =
      inputs.timeHorizonYears * 12
    exact hlen _
  · show ((List.range (inputs.timeHorizonYears * 12)).map
        (Formulas.cumAt savings.totalSavingsAnnual inputs.utilisationRampMonths costs
          inputs.resaleRecoveryPctHardware (inputs.timeHorizonYears * 12))).length =
      inputs.timeHorizonYears * 12
    exact hlen _
  · by_cases hN : 0 < inputs.timeHorizonYears * 12
    · rw [hcum 0 hN, hnet 0 hN, Formulas.cumAt, Finset.sum_range_one]
    · have h0 : inputs.timeHorizonYears * 12 = 0 := by omega
      simp [Formulas.calculateTimeline, h0]
  · intro i h1 hiN
    obtain ⟨k, rfl⟩ : ∃ k, i = k + 1 := ⟨i - 1, by omega⟩
    rw [hcum (k + 1) hiN, hcum ((k + 1) - 1) (by omega), hnet (k + 1) hiN]
    simp only [Nat.add_sub_cancel]
    rw [Formulas.cumAt, Formulas.cumAt, Finset.sum_range_succ]
  · intro i hiN
    rw [hnet i hiN, hsav i hiN, hcost i hiN]
    rfl

unseal Rat.mul Rat.inv Rat.add Rat.sub Rat.ofScientific in
/-- Witness for C8: at the reference fixture, month 2's cumulative net is
month 1's plus month 2's net flow. -/
theorem claim8_timeline_recurrence_witness :
    (Formulas.calculateTimeline exMaxFuel ⟨Formulas.totalSavingsAnnualOf exMaxFuel⟩
        (Formulas.calculateProgramCosts exMaxFuel)).cumNetMonthly.getD 2 0 =
      (Formulas.calculateTimeline exMaxFuel ⟨Formulas.totalSavingsAnnualOf exMaxFuel⟩
        (Formulas.calculateProgramCosts exMaxFuel)).cumNetMonthly.getD 1 0 +
      (Formulas.calculateTimeline exMaxFuel ⟨Formulas.totalSavingsAnnualOf exMaxFuel⟩
        (Formulas.calculateProgramCosts exMaxFuel)).netMonthly.getD 2 0 :=
  (claim8_timeline_recurrence exMaxFuel ⟨Formulas.totalSavingsAnnualOf exMaxFuel⟩
    (Formulas.calculateProgramCosts exMaxFuel)).2.2.2.2.2.2.1 2 (by decide) (by decide)

unseal Rat.mul Rat.inv Rat.add Rat.sub Rat.ofScientific in
/-- Claim C9: the scenario adjuster does not preserve validity: the reference
fixture with `fuelSavingsPct = 50` (the schema maximum) validates, but its
aggressive adjustment (`fuelSavingsPct = 62.5`) is rejected by
`validateInputs` — the adjuster neither clamps nor re-validates. -/
theorem claim9_scenario_breaks_validation :
    (Validation.validateInputs (Validation.inputsToRaw exMaxFuel)).isValid = true ∧
    (Formulas.applyScenario exMaxFuel "aggressive").fuelSavingsPct = 125 / 2 ∧
    (Validation.validateInputs (Validation.inputsToRaw
        (Formulas.applyScenario exMaxFuel "aggressive"))).isValid = false :=
  ⟨by decide, by decide, by decide⟩

/-- Number-typed schema entries carry no `allowedValues` list. -/
theorem schema_number_allowed_none (f : Validation.Field)
    (h : (Validation.schema f).ftype = .number) :
    (Validation.schema f).allowed = none := by
  cases f <;> simp_all [Validation.schema]

/-- Claim C10: for a number-typed field, a raw string whose numeric prefix
parses (under the full `parseFloat` grammar — sign, decimal mantissa, optional
exponent part) to a finite in-range value is accepted, the coerced record
holding the parsed value with the trailing characters discarded; coercion
marks a string absent (`null`) exactly when `parseFloat` yields `NaN`, i.e.
when no numeric prefix parses at all — an `Infinity` literal coerces to the
infinite number, not to the absence marker. -/
theorem claim10_parseFloat_prefix :
    (∀ (raw : Validation.RawRecord) (f : Validation.Field) (s : String) (v : ℚ),
      (Validation.schema f).ftype = .number → raw f = .str s →
      Validation.parseFloatJS s = .fin v →
      (∀ m ∈ (Validation.schema f).min, m ≤ v) →
      (∀ M ∈ (Validation.schema f).max, v ≤ M) →
      (Validation.validateInputs raw).coercedInputs f = .num v ∧
      (Validation.validateInputs raw).errors f = none) ∧
    (∀ s : String, Validation.coerceValue (.str s) .number = .null ↔
      Validation.parseFloatJS s = .nan) := by
  constructor
  · intro raw f s v hft hraw hp hmin hmax
    have hs : s ≠ "" := by
      intro h'
      rw [h', show Validation.parseFloatJS "" = .nan from by decide] at hp
      exact JSN.noConfusion hp
    have hcv : Validation.coercedOf raw f = .num v := by
      rw [Validation.coercedOf, hraw, hft]
      simp [Validation.coerceValue, hs, hp]
    have hfr : f ≠ .utilisationRampMonths := by
      intro h'
      rw [h'] at hft
      simp [Validation.schema] at hft
    have hcross : Validation.validateCrossFields (Validation.coercedOf raw) f = none := by
      simp [Validation.validateCrossFields, hfr]
    have hbm : Validation.belowMinB (.num v) (Validation.schema f) = false := by
      cases hm : (Validation.schema f).min with
      | none => simp [Validation.belowMinB, hm]
      | some m =>
          simp [Validation.belowMinB, hm]
          exact hmin m hm
    have ham : Validation.aboveMaxB (.num v) (Validation.schema f) = false := by
      cases hm : (Validation.schema f).max with
      | none => simp [Validation.aboveMaxB, hm]
      | some m =>
          simp [Validation.aboveMaxB, hm]
          exact hmax m hm
    have haf : Validation.allowedFails (.num v) (Validation.schema f) = false := by
      simp [Validation.allowedFails, schema_number_allowed_none f hft]
    have hfe : Validation.fieldErrorOf raw f = none := by
      rw [Validation.fieldErrorOf, hcv, Validation.validateField]
      simp [hft, Validation.cvIsNumber, hbm, ham, haf]
    refine ⟨hcv, ?_⟩
    rw [validateInputs_errors_def, hcross]
    exact hfe
  · intro s
    by_cases hs : s = ""
    · subst hs
      constructor
      · intro _
        decide
      · intro _
        simp [Validation.coerceValue]
    · cases hp : Validation.parseFloatJS s with
      | fin q => simp [Validation.coerceValue, hs, hp]
      | inf => simp [Validation.coerceValue, hs, hp]
      | ninf => simp [Validation.coerceValue, hs, hp]
      | nan => simp [Validation.coerceValue, hs, hp]

unseal Rat.mul Rat.inv Rat.add Rat.sub Rat.ofScientific in
/-- Witness for C10: the string "12abc" supplied for `fuelSavingsPct`
(range 0..50) coerces to 12 and validates with no error for the field. -/
theorem claim10_parseFloat_prefix_witness :
    (Validation.validateInputs exRaw12abc).coercedInputs .fuelSavingsPct = .num 12 ∧
    (Validation.validateInputs exRaw12abc).errors .fuelSavingsPct = none :=
  claim10_parseFloat_prefix.1 exRaw12abc .fuelSavingsPct "12abc" 12 (by decide) (by decide)
    (by decide)
    (by intro m hm; simp [Validation.schema, Option.mem_def] at hm; subst hm; norm_num)
    (by intro M hM; simp [Validation.schema, Option.mem_def] at hM; subst hM; norm_num)
